import Mathlib

/-!
Verification of the transaction-submission and packet-encoding core of the
`ibc-rs` relayer, shallowly embedded in Lean 4.

Embedded source files:
* `modules/src/applications/ics20_fungible_token_transfer/packet.rs`
  (the ICS-20 packet codec: `TryFrom<RawPacketData> for PacketData` and
  `From<PacketData> for RawPacketData`);
* `tools/test-framework/src/relayer/tx.rs` (`simple_send_tx`);
* `tools/integration-test/src/framework/overrides.rs`
  (`TestOverrides::spawn_supervisor` and its defaults).

Collaborators whose Rust sources are not part of this repository slice
(the `Denom`/`Decimal` grammars, `Signer`, the `IbcEvent` type, the remote
calls `query_account` / `estimate_fee_and_send_tx` / `wait_for_block_commits`,
and `RelayerDriver::spawn_supervisor`) are modelled from the specification
and treated as opaque oracles where the specification leaves them opaque.
-/

deriving instance DecidableEq for Except

/- ## Packet codec data model -/

/-- Modelled from the spec: the denom grammar. The spec describes `Denom` as
"a validated non-empty identifier string"; its `FromStr` implementation is not
part of this repository slice, so the grammar is modelled as: any non-empty
string is a valid denom, the empty string is not. -/
def validDenom (s : String) : Bool :=
  !s.isEmpty

/-- Modelled from the spec: the decimal grammar for token amounts. The spec
describes `Decimal` as "an arbitrary-precision non-negative decimal amount;
invariant: must be lexically valid per the decimal grammar". The grammar is
modelled as: one or more ASCII digits, optionally followed by a dot and one or
more ASCII digits. -/
def validDecimalChars : List Char → Bool
  | [] => false
  | c :: rest =>
    c.isDigit &&
      (rest.all Char.isDigit ||
        (match rest.span Char.isDigit with
          | (_, '.' :: frac) => !frac.isEmpty && frac.all Char.isDigit
          | _ => false))

/-- Modelled from the spec: lexical validity of an amount string. -/
def validDecimal (s : String) : Bool :=
  validDecimalChars s.data

/-- `Denom`: a validated string, the domain form of the `denom` wire field.
Modelled from the spec as the subtype of strings accepted by the denom
grammar. -/
def Denom : Type := { s : String // validDenom s = true }

instance : DecidableEq Denom :=
  inferInstanceAs (DecidableEq { s : String // validDenom s = true })

/-- Canonical rendering of a `Denom` (`Denom::to_string`): the underlying
validated string. -/
def Denom.toStr (d : Denom) : String := d.val

/-- `Decimal`: a validated amount, the domain form of the `amount` wire field.
Modelled from the spec as the subtype of strings accepted by the decimal
grammar (the spec leaves the canonical rendering to the implementer; this
model keeps the lexical form, so rendering is the identity on the wire
string). -/
def Decimal : Type := { s : String // validDecimal s = true }

instance : DecidableEq Decimal :=
  inferInstanceAs (DecidableEq { s : String // validDecimal s = true })

/-- Canonical rendering of a `Decimal` (`Decimal::to_string`). -/
def Decimal.toStr (d : Decimal) : String := d.val

/-- `Signer` (from `crate::signer`): a chain-agnostic address string.
Modelled from the spec: "constructed by direct, lossless wrapping of the wire
string — no validation performed here". -/
structure Signer where
  val : String
deriving DecidableEq

/-- `Signer::to_string`: the underlying string. -/
def Signer.toStr (s : Signer) : String := s.val

/-- `From<String> for Signer`: direct lossless wrapping, no validation. -/
def Signer.fromString (s : String) : Signer := ⟨s⟩

/-- `Coin { denom, amount }` from the ICS-20 application module. -/
structure Coin where
  denom : Denom
  amount : Decimal
deriving DecidableEq

/-- `PacketData` from `packet.rs`: the validated domain form of an ICS-20
token-transfer payload. -/
structure PacketData where
  token : Coin
  sender : Signer
  receiver : Signer
deriving DecidableEq

/-- `RawPacketData` (`FungibleTokenPacketData`): the wire form, four plain
strings. -/
structure RawPacketData where
  denom : String
  amount : String
  sender : String
  receiver : String
deriving DecidableEq

/-- The ICS-20 application `Error` as used by `packet.rs`: `Denom::from_str`
failure surfaces through `?` as an invalid-denom error, and
`Error::invalid_coin_amount` wraps the amount parse diagnostic. -/
inductive Ics20Error where
  | invalidDenom (denom : String)
  | invalidCoinAmount (diagnostic : String)
deriving DecidableEq

/-- `Denom::from_str`. Modelled from the spec: parse succeeds exactly when the
string satisfies the denom grammar; failure is the distinct invalid-denom
error. -/
def Denom.fromStr (s : String) : Except Ics20Error Denom :=
  if h : validDenom s = true then .ok ⟨s, h⟩
  else .error (.invalidDenom s)

/-- `Decimal::from_str`. Modelled from the spec: parse succeeds exactly when
the string is lexically valid per the decimal grammar; failure carries the
original parse diagnostic. -/
def Decimal.fromStr (s : String) : Except String Decimal :=
  if h : validDecimal s = true then .ok ⟨s, h⟩
  else .error ("invalid decimal: " ++ s)

/-- `TryFrom<RawPacketData> for PacketData` (`packet.rs` lines 18–30): parse
the denom, then the amount (mapping its diagnostic through
`Error::invalid_coin_amount`), and wrap sender/receiver as `Signer` without
validation. -/
def PacketData.tryFromRaw (raw : RawPacketData) : Except Ics20Error PacketData :=
  match Denom.fromStr raw.denom with
  | .error e => .error e
  | .ok denom =>
    match Decimal.fromStr raw.amount with
    | .error diag => .error (.invalidCoinAmount diag)
    | .ok amount =>
      .ok
        { token := { denom := denom, amount := amount }
          sender := Signer.fromString raw.sender
          receiver := Signer.fromString raw.receiver }

/-- `From<PacketData> for RawPacketData` (`packet.rs` lines 32–41): render
every field to its string form. -/
def RawPacketData.fromPacketData (pktData : PacketData) : RawPacketData :=
  { denom := pktData.token.denom.toStr
    amount := pktData.token.amount.toStr
    sender := pktData.sender.toStr
    receiver := pktData.receiver.toStr }

/- ## Transaction submission (`tools/test-framework/src/relayer/tx.rs`) -/

/-- Modelled from the spec: the `IbcEvent` enum. Only the `ChainError`
variant (carrying a human-readable cause) is inspected by this core;
`IbcEvent::default()` is a default/placeholder variant distinct from
`ChainError`; every other variant is collapsed into `other` and treated as
non-error. -/
inductive IbcEvent where
  | chainError (cause : String)
  | defaultEvent
  | other (tag : String)
deriving DecidableEq

/-- The test-framework `Error` as used by `tx.rs`: a generic error wrapping a
human-readable report (`Error::generic(eyre!(...))`). -/
inductive FrameworkError where
  | generic (msg : String)
deriving DecidableEq

/-- `TxSyncResult { response, events }`: one submission outcome per broadcast
transaction, with one event slot per batched message. The response type is
opaque to this core. -/
structure TxSyncResult (R : Type) where
  response : R
  events : List IbcEvent
deriving DecidableEq

/-- The inner `for event in result.events` loop of `simple_send_tx`: the cause
of the first `ChainError` event, if any. -/
def firstChainErrorInEvents : List IbcEvent → Option String
  | [] => none
  | .chainError e :: _ => some e
  | _ :: rest => firstChainErrorInEvents rest

/-- The outer `for result in tx_sync_results` loop of `simple_send_tx`: the
cause of the first `ChainError` across all results, in order. -/
def firstChainError {R : Type} : List (TxSyncResult R) → Option String
  | [] => none
  | r :: rs =>
    match firstChainErrorInEvents r.events with
    | some e => some e
    | none => firstChainError rs

/-- The event scan at the end of `simple_send_tx` (lines 75–83): returns the
generic error built from the first `ChainError` cause if one exists, `Ok(())`
otherwise. -/
def classifyResults {R : Type} (results : List (TxSyncResult R)) :
    Except FrameworkError Unit :=
  match firstChainError results with
  | some e => .error (.generic ("send_tx result in error: " ++ e))
  | none => .ok ()

/-- One remote step performed by `simple_send_tx`, recorded in order of
execution. The commitment-wait step records the per-transaction event lists
handed to `wait_for_block_commits`. -/
inductive Step where
  | queryAccount
  | estimateFeeAndSendTx
  | waitForBlockCommits (eventsPerResult : List (List IbcEvent))
deriving DecidableEq

/-- Modelled from the spec: the remote collaborators of `simple_send_tx`
(whose Rust sources are outside this repository slice), as an oracle giving
each call's result. `Acc` is the opaque account state, `R` the opaque
broadcast response.

* `newHttpClient`: `HttpClient::new(config.rpc_addr)` (local, fallible);
* `parseGrpcUri`: `Uri::from_str(&config.grpc_addr.to_string())` (local,
  fallible);
* `queryAccount`: one fresh account query;
* `sendTx`: `estimate_fee_and_send_tx`, consuming the queried account state;
* `waitCommits`: `wait_for_block_commits`, taking the placeholder-filled
  results and returning them with event data merged in. -/
structure Oracle (Acc R : Type) where
  newHttpClient : Except FrameworkError Unit
  parseGrpcUri : Except FrameworkError Unit
  queryAccount : Except FrameworkError Acc
  sendTx : Acc → Except FrameworkError R
  waitCommits : List (TxSyncResult R) → Except FrameworkError (List (TxSyncResult R))

/-- `simple_send_tx` (`tx.rs` lines 29–84), embedded with an explicit trace of
the remote steps it performs, in order. Each fallible step propagates its
error immediately (the `?` operator); the events vector is initialized as
`message_count` default placeholders; the final scan classifies the committed
results. -/
def simpleSendTx {Acc R : Type} (oracle : Oracle Acc R) (messages : List α) :
    Except FrameworkError Unit × List Step :=
  match oracle.newHttpClient with
  | .error e => (.error e, [])
  | .ok _ =>
    match oracle.parseGrpcUri with
    | .error e => (.error e, [])
    | .ok _ =>
      match oracle.queryAccount with
      | .error e => (.error e, [.queryAccount])
      | .ok account =>
        match oracle.sendTx account with
        | .error e => (.error e, [.queryAccount, .estimateFeeAndSendTx])
        | .ok response =>
          let eventsPerTx := List.replicate messages.length IbcEvent.defaultEvent
          let txSyncResults : List (TxSyncResult R) := [⟨response, eventsPerTx⟩]
          let trace :=
            [Step.queryAccount, Step.estimateFeeAndSendTx,
              Step.waitForBlockCommits (txSyncResults.map TxSyncResult.events)]
          match oracle.waitCommits txSyncResults with
          | .error e => (.error e, trace)
          | .ok committed => (classifyResults committed, trace)

/- ## Test overrides (`tools/integration-test/src/framework/overrides.rs`) -/

/-- Modelled from the spec: `RelayerDriver::spawn_supervisor` (outside this
repository slice), an opaque fallible operation producing a supervisor
handle of opaque type `H`. -/
structure RelayerDriver (H : Type) where
  spawnSupervisorImpl : Except FrameworkError H

/-- A type implementing `TestOverrides`, keeping the default body of
`spawn_supervisor`: the one overridable input of that default body is
`should_spawn_supervisor`, whose own default returns `true`. -/
structure TestOverrides where
  shouldSpawnSupervisor : Bool := true

/-- The default `TestOverrides` implementation: every method keeps its default
body. -/
def TestOverrides.defaults : TestOverrides := {}

/-- The default body of `TestOverrides::spawn_supervisor` (`overrides.rs`
lines 68–88): if `should_spawn_supervisor()` returns true, spawn via the
relayer driver and wrap the handle in `Some`; otherwise return `Ok(None)`.
The second component records whether the driver spawn was invoked. -/
def TestOverrides.spawnSupervisor {H : Type} (t : TestOverrides)
    (relayer : RelayerDriver H) : Except FrameworkError (Option H) × Bool :=
  if t.shouldSpawnSupervisor then
    match relayer.spawnSupervisorImpl with
    | .ok handle => (.ok (some handle), true)
    | .error e => (.error e, true)
  else
    (.ok none, false)

/-- A concrete all-success oracle over trivial account and response types,
used to exercise the submission pipeline at concrete inputs. -/
def oracleOk : Oracle Unit Unit :=
  { newHttpClient := .ok ()
    parseGrpcUri := .ok ()
    queryAccount := .ok ()
    sendTx := fun _ => .ok ()
    waitCommits := fun results => .ok results }

/-- A concrete oracle whose account query fails, used to exercise the
fail-fast behavior of the submission pipeline. -/
def oracleQueryFail : Oracle Unit Unit :=
  { newHttpClient := .ok ()
    parseGrpcUri := .ok ()
    queryAccount := .error (.generic "no account")
    sendTx := fun _ => .ok ()
    waitCommits := fun results => .ok results }

/- ## Claim theorems: packet codec -/

/-- C1: for every valid `PacketData` value `p`, encoding `p` to
`RawPacketData` and then decoding the result yields `Ok(p)`:
`decode(encode(p)) == p`. -/
theorem decode_encode_roundtrip (p : PacketData) :
    PacketData.tryFromRaw (RawPacketData.fromPacketData p) = .ok p := by
  obtain ⟨⟨⟨dv, dh⟩, ⟨av, ah⟩⟩, ⟨sv⟩, ⟨rv⟩⟩ := p
  simp [PacketData.tryFromRaw, RawPacketData.fromPacketData, Denom.fromStr,
    Decimal.fromStr, Denom.toStr, Decimal.toStr, Signer.toStr,
    Signer.fromString, dh, ah]

/-- C5: for every `RawPacketData` whose denom string fails to parse under the
denom grammar, decode returns the `InvalidDenom` error (distinct from
`InvalidAmount`), and no `PacketData` is produced. -/
theorem decode_invalid_denom (raw : RawPacketData)
    (hd : validDenom raw.denom = false) :
    PacketData.tryFromRaw raw = .error (.invalidDenom raw.denom) := by
  simp [PacketData.tryFromRaw, Denom.fromStr, hd]

/-- Witness for `decode_invalid_denom`, at the spec's concrete instance
`{denom:"", amount:"10", ...}`. -/
theorem decode_invalid_denom_witness :
    PacketData.tryFromRaw ⟨"", "10", "a", "b"⟩ =
      .error (.invalidDenom "") :=
  decode_invalid_denom ⟨"", "10", "a", "b"⟩ (by decide)

/-- C4 counterexample: a `RawPacketData` whose amount string is not lexically
valid under the decimal grammar but whose denom is also invalid decodes to
`InvalidDenom`, not `InvalidAmount` — the denom is parsed first. -/
theorem decode_invalid_amount_counterexample :
    validDecimal "not-a-number" = false ∧
      PacketData.tryFromRaw ⟨"", "not-a-number", "a", "b"⟩ =
        .error (.invalidDenom "") := by
  decide

/-- C4 (amended): for every `RawPacketData` whose denom is valid under the
denom grammar and whose amount string is not lexically valid under the
decimal grammar, decode returns `InvalidAmount` carrying the original parse
diagnostic, and no partial `PacketData` is returned. -/
theorem decode_invalid_amount (raw : RawPacketData)
    (hd : validDenom raw.denom = true) (ha : validDecimal raw.amount = false) :
    PacketData.tryFromRaw raw =
      .error (.invalidCoinAmount ("invalid decimal: " ++ raw.amount)) := by
  simp [PacketData.tryFromRaw, Denom.fromStr, Decimal.fromStr, hd, ha]

/-- Witness for `decode_invalid_amount`, at the spec's concrete instance
`{denom:"uatom", amount:"not-a-number", sender:"a", receiver:"b"}`. -/
theorem decode_invalid_amount_witness :
    PacketData.tryFromRaw ⟨"uatom", "not-a-number", "a", "b"⟩ =
      .error (.invalidCoinAmount ("invalid decimal: " ++ "not-a-number")) :=
  decode_invalid_amount ⟨"uatom", "not-a-number", "a", "b"⟩
    (by decide) (by decide)

/-- C6: `encode` is total — a plain function defined on every `PacketData` —
and renders `Denom` and `Decimal` to their canonical string forms and each
`Signer` to its underlying string. -/
theorem encode_total (p : PacketData) :
    (RawPacketData.fromPacketData p).denom = p.token.denom.toStr ∧
      (RawPacketData.fromPacketData p).amount = p.token.amount.toStr ∧
      (RawPacketData.fromPacketData p).sender = p.sender.val ∧
      (RawPacketData.fromPacketData p).receiver = p.receiver.val :=
  ⟨rfl, rfl, rfl, rfl⟩

/-- C7: decode performs no validation on sender and receiver: for every
`RawPacketData` with a valid denom and valid amount, decode succeeds for
every sender string and every receiver string, wrapping each losslessly as a
`Signer`. -/
theorem decode_wraps_signers (raw : RawPacketData)
    (hd : validDenom raw.denom = true) (ha : validDecimal raw.amount = true) :
    PacketData.tryFromRaw raw =
      .ok
        { token := { denom := ⟨raw.denom, hd⟩, amount := ⟨raw.amount, ha⟩ }
          sender := Signer.fromString raw.sender
          receiver := Signer.fromString raw.receiver } := by
  simp [PacketData.tryFromRaw, Denom.fromStr, Decimal.fromStr, hd, ha]

/-- Witness for `decode_wraps_signers`, with empty sender and receiver
strings: even the empty string is accepted at this layer. -/
theorem decode_wraps_signers_witness :
    PacketData.tryFromRaw ⟨"uatom", "10", "", ""⟩ =
      .ok
        { token :=
            { denom := ⟨"uatom", by decide⟩, amount := ⟨"10", by decide⟩ }
          sender := Signer.fromString ""
          receiver := Signer.fromString "" } :=
  decode_wraps_signers ⟨"uatom", "10", "", ""⟩ (by decide) (by decide)

/- ## Claim theorems: outcome classification -/

/-- If some `chainError` event occurs in a list, the inner scan finds the
first one: it returns a cause whose event splits the list with no
`chainError` before it. -/
theorem firstChainErrorInEvents_eq_some_of_mem (events : List IbcEvent)
    (c : String) (hmem : IbcEvent.chainError c ∈ events) :
    ∃ first pre post,
      firstChainErrorInEvents events = some first ∧
        events = pre ++ IbcEvent.chainError first :: post ∧
        ∀ e ∈ pre, ∀ cause, e ≠ IbcEvent.chainError cause := by
  induction events with
  | nil => cases hmem
  | cons e rest ih =>
    cases e with
    | chainError c0 =>
      exact ⟨c0, [], rest, rfl, rfl, by simp⟩
    | defaultEvent =>
      have hmem' : IbcEvent.chainError c ∈ rest := by
        simpa using hmem
      obtain ⟨first, pre, post, h1, h2, h3⟩ := ih hmem'
      refine ⟨first, .defaultEvent :: pre, post, ?_, by simp [h2], ?_⟩
      · simpa [firstChainErrorInEvents] using h1
      · intro e he cause
        rcases List.mem_cons.mp he with rfl | he'
        · simp
        · exact h3 e he' cause
    | other tag =>
      have hmem' : IbcEvent.chainError c ∈ rest := by
        simpa using hmem
      obtain ⟨first, pre, post, h1, h2, h3⟩ := ih hmem'
      refine ⟨first, .other tag :: pre, post, ?_, by simp [h2], ?_⟩
      · simpa [firstChainErrorInEvents] using h1
      · intro e he cause
        rcases List.mem_cons.mp he with rfl | he'
        · simp
        · exact h3 e he' cause

/-- If no `chainError` event occurs in a list, the inner scan finds none. -/
theorem firstChainErrorInEvents_eq_none (events : List IbcEvent)
    (h : ∀ c, IbcEvent.chainError c ∉ events) :
    firstChainErrorInEvents events = none := by
  induction events with
  | nil => rfl
  | cons e rest ih =>
    cases e with
    | chainError c0 => exact absurd (List.mem_cons_self _ _) (h c0)
    | defaultEvent =>
      exact ih fun c hc => h c (List.mem_cons_of_mem _ hc)
    | other tag =>
      exact ih fun c hc => h c (List.mem_cons_of_mem _ hc)

/-- C2: for every `SubmissionOutcome` whose events sequence contains at least
one `ChainError` event, the event scan of `simple_send_tx` returns a
`ChainError` classification error carrying the cause of the first
`ChainError` in event order — never success. -/
theorem classify_chain_error {R : Type} (outcome : TxSyncResult R)
    (c : String) (hmem : IbcEvent.chainError c ∈ outcome.events) :
    ∃ first pre post,
      outcome.events = pre ++ IbcEvent.chainError first :: post ∧
        (∀ e ∈ pre, ∀ cause, e ≠ IbcEvent.chainError cause) ∧
        classifyResults [outcome] =
          .error (.generic ("send_tx result in error: " ++ first)) := by
  obtain ⟨first, pre, post, h1, h2, h3⟩ :=
    firstChainErrorInEvents_eq_some_of_mem outcome.events c hmem
  exact ⟨first, pre, post, h2, h3, by simp [classifyResults, firstChainError, h1]⟩

/-- Witness for `classify_chain_error`: an outcome whose second slot is the
first `ChainError` yields the classification error built from that cause. -/
theorem classify_chain_error_witness :
    ∃ first pre post,
      (TxSyncResult.events
          (⟨(), [IbcEvent.other "x", IbcEvent.chainError "boom",
            IbcEvent.chainError "later"]⟩ : TxSyncResult Unit)) =
          pre ++ IbcEvent.chainError first :: post ∧
        (∀ e ∈ pre, ∀ cause, e ≠ IbcEvent.chainError cause) ∧
        classifyResults
            [(⟨(), [IbcEvent.other "x", IbcEvent.chainError "boom",
              IbcEvent.chainError "later"]⟩ : TxSyncResult Unit)] =
          .error (.generic ("send_tx result in error: " ++ first)) :=
  classify_chain_error
    ⟨(), [IbcEvent.other "x", IbcEvent.chainError "boom",
      IbcEvent.chainError "later"]⟩ "boom" (by decide)

/-- C3: for every `SubmissionOutcome` in which no event slot is the
`ChainError` variant — including outcomes whose slots are all still
default/placeholder events — the event scan of `simple_send_tx` returns
success. -/
theorem classify_no_chain_error {R : Type} (outcome : TxSyncResult R)
    (h : ∀ c, IbcEvent.chainError c ∉ outcome.events) :
    classifyResults [outcome] = .ok () := by
  simp [classifyResults, firstChainError,
    firstChainErrorInEvents_eq_none outcome.events h]

/-- Witness for `classify_no_chain_error`, at the spec's concrete instance:
a two-message batch whose slots are both unfilled default placeholders is
classified as success. -/
theorem classify_no_chain_error_witness :
    classifyResults
        [(⟨(), [IbcEvent.defaultEvent, IbcEvent.defaultEvent]⟩ :
          TxSyncResult Unit)] = .ok () :=
  classify_no_chain_error
    ⟨(), [IbcEvent.defaultEvent, IbcEvent.defaultEvent]⟩
    (fun c => by simp)

/- ## Claim theorems: transaction submission pipeline -/

/-- C8: for every input batch of `n` messages, `simple_send_tx` hands the
commitment waiter an outcome whose events sequence is exactly `n`
default/empty placeholder events, one slot per message, in message order. -/
theorem events_placeholders {α Acc R : Type} (oracle : Oracle Acc R)
    (messages : List α) (evss : List (List IbcEvent))
    (hmem : Step.waitForBlockCommits evss ∈ (simpleSendTx oracle messages).2) :
    evss = [List.replicate messages.length IbcEvent.defaultEvent] ∧
      ∀ evs ∈ evss, evs.length = messages.length ∧
        ∀ (i : Nat) (hi : i < evs.length),
          evs.get ⟨i, hi⟩ = IbcEvent.defaultEvent := by
  have hevss : evss = [List.replicate messages.length IbcEvent.defaultEvent] := by
    cases hc : oracle.newHttpClient with
    | error e => simp [simpleSendTx, hc] at hmem
    | ok u =>
      cases hg : oracle.parseGrpcUri with
      | error e => simp [simpleSendTx, hc, hg] at hmem
      | ok u2 =>
        cases hq : oracle.queryAccount with
        | error e => simp [simpleSendTx, hc, hg, hq] at hmem
        | ok acc =>
          cases hs : oracle.sendTx acc with
          | error e => simp [simpleSendTx, hc, hg, hq, hs] at hmem
          | ok resp =>
            cases hw : oracle.waitCommits
                [⟨resp, List.replicate messages.length IbcEvent.defaultEvent⟩] with
            | error e =>
              simpa [simpleSendTx, hc, hg, hq, hs, hw] using hmem
            | ok committed =>
              simpa [simpleSendTx, hc, hg, hq, hs, hw] using hmem
  subst hevss
  refine ⟨rfl, ?_⟩
  intro evs hevs
  have hevs' : evs = List.replicate messages.length IbcEvent.defaultEvent := by
    simpa using hevs
  subst hevs'
  refine ⟨List.length_replicate _ _, ?_⟩
  intro i hi
  exact List.eq_of_mem_replicate (List.get_mem _ _ hi)

/-- Witness for `events_placeholders`: a three-message batch hands the waiter
exactly one event list of three default placeholders. -/
theorem events_placeholders_witness :
    Step.waitForBlockCommits [List.replicate 3 IbcEvent.defaultEvent] ∈
        (simpleSendTx oracleOk ([0, 1, 2] : List Nat)).2 ∧
      [List.replicate 3 IbcEvent.defaultEvent] =
        [List.replicate ([0, 1, 2] : List Nat).length IbcEvent.defaultEvent] :=
  ⟨by decide,
    (events_placeholders oracleOk [0, 1, 2]
        [List.replicate 3 IbcEvent.defaultEvent] (by decide)).1⟩

/-- C9: `simple_send_tx` performs each remote step at most once and in order
(account query, then fee-estimate-and-broadcast consuming the queried
account, then commitment wait), and a failing step returns its error
immediately, with no retry and no later step — in particular a failed
account query means nothing is signed or broadcast. -/
theorem remote_steps_once_in_order {α Acc R : Type} (oracle : Oracle Acc R)
    (messages : List α) :
    ((simpleSendTx oracle messages).2 = [] ∨
      (simpleSendTx oracle messages).2 = [Step.queryAccount] ∨
      (simpleSendTx oracle messages).2 =
        [Step.queryAccount, Step.estimateFeeAndSendTx] ∨
      (simpleSendTx oracle messages).2 =
        [Step.queryAccount, Step.estimateFeeAndSendTx,
          Step.waitForBlockCommits
            [List.replicate messages.length IbcEvent.defaultEvent]]) ∧
      (∀ e, oracle.newHttpClient = .ok () → oracle.parseGrpcUri = .ok () →
        oracle.queryAccount = .error e →
        simpleSendTx oracle messages = (.error e, [Step.queryAccount])) ∧
      (∀ acc e, oracle.newHttpClient = .ok () → oracle.parseGrpcUri = .ok () →
        oracle.queryAccount = .ok acc → oracle.sendTx acc = .error e →
        simpleSendTx oracle messages =
          (.error e, [Step.queryAccount, Step.estimateFeeAndSendTx])) ∧
      (∀ acc resp e, oracle.newHttpClient = .ok () →
        oracle.parseGrpcUri = .ok () → oracle.queryAccount = .ok acc →
        oracle.sendTx acc = .ok resp →
        oracle.waitCommits
            [⟨resp, List.replicate messages.length IbcEvent.defaultEvent⟩] =
          .error e →
        simpleSendTx oracle messages =
          (.error e,
            [Step.queryAccount, Step.estimateFeeAndSendTx,
              Step.waitForBlockCommits
                [List.replicate messages.length IbcEvent.defaultEvent]])) := by
  refine ⟨?_, ?_, ?_, ?_⟩
  · cases hc : oracle.newHttpClient with
    | error e => left; simp [simpleSendTx, hc]
    | ok u =>
      cases hg : oracle.parseGrpcUri with
      | error e => left; simp [simpleSendTx, hc, hg]
      | ok u2 =>
        cases hq : oracle.queryAccount with
        | error e => right; left; simp [simpleSendTx, hc, hg, hq]
        | ok acc =>
          cases hs : oracle.sendTx acc with
          | error e => right; right; left; simp [simpleSendTx, hc, hg, hq, hs]
          | ok resp =>
            cases hw : oracle.waitCommits
                [⟨resp, List.replicate messages.length IbcEvent.defaultEvent⟩] with
            | error e =>
              right; right; right; simp [simpleSendTx, hc, hg, hq, hs, hw]
            | ok committed =>
              right; right; right; simp [simpleSendTx, hc, hg, hq, hs, hw]
  · intro e hc hg hq
    simp [simpleSendTx, hc, hg, hq]
  · intro acc e hc hg hq hs
    simp [simpleSendTx, hc, hg, hq, hs]
  · intro acc resp e hc hg hq hs hw
    simp [simpleSendTx, hc, hg, hq, hs, hw]

/-- Witness for `remote_steps_once_in_order`: with a failing account query,
the pipeline returns that error after the query step alone — nothing is
signed, broadcast or waited on. -/
theorem remote_steps_once_in_order_witness :
    simpleSendTx oracleQueryFail ([0] : List Nat) =
      (.error (.generic "no account"), [Step.queryAccount]) :=
  (remote_steps_once_in_order oracleQueryFail [0]).2.1
    (.generic "no account") rfl rfl rfl

/- ## Claim theorems: test overrides -/

/-- C10: with the default method bodies, `spawn_supervisor` returns
`Ok(Some(handle))` exactly when `should_spawn_supervisor()` returns true
(which it does by default) and the underlying driver spawn succeeds; when
`should_spawn_supervisor()` returns false it returns `Ok(None)` without
spawning; and a failing driver spawn propagates its error. -/
theorem spawn_supervisor_spec {H : Type} (t : TestOverrides)
    (relayer : RelayerDriver H) :
    TestOverrides.defaults.shouldSpawnSupervisor = true ∧
      (t.shouldSpawnSupervisor = false →
        t.spawnSupervisor relayer = (.ok none, false)) ∧
      (∀ handle : H,
        (t.spawnSupervisor relayer).1 = .ok (some handle) ↔
          t.shouldSpawnSupervisor = true ∧
            relayer.spawnSupervisorImpl = .ok handle) ∧
      (∀ e, t.shouldSpawnSupervisor = true →
        relayer.spawnSupervisorImpl = .error e →
        t.spawnSupervisor relayer = (.error e, true)) := by
  refine ⟨rfl, ?_, ?_, ?_⟩
  · intro hfalse
    simp [TestOverrides.spawnSupervisor, hfalse]
  · intro handle
    cases ht : t.shouldSpawnSupervisor with
    | false =>
      simp [TestOverrides.spawnSupervisor, ht]
    | true =>
      cases hr : relayer.spawnSupervisorImpl with
      | error e => simp [TestOverrides.spawnSupervisor, ht, hr]
      | ok h0 => simp [TestOverrides.spawnSupervisor, ht, hr]
  · intro e htrue hr
    simp [TestOverrides.spawnSupervisor, htrue, hr]

/-- Witness for `spawn_supervisor_spec`: with all defaults and a driver whose
spawn succeeds with handle `7`, `spawn_supervisor` returns `Ok(Some(7))`. -/
theorem spawn_supervisor_spec_witness :
    (TestOverrides.defaults.spawnSupervisor
        (⟨.ok 7⟩ : RelayerDriver Nat)).1 = .ok (some 7) :=
  ((spawn_supervisor_spec TestOverrides.defaults ⟨.ok 7⟩).2.2.1 7).mpr
    ⟨rfl, rfl⟩

example : validDecimal "10" = true := by decide
example : validDecimal "1.0" = true := by decide
example : validDecimal "not-a-number" = false := by decide
example : validDecimal "" = false := by decide
example : validDecimal "1." = false := by decide
example : validDecimal ".5" = false := by decide
example : validDecimal "1.2.3" = false := by decide
example : validDenom "uatom" = true := by decide
example : validDenom "" = false := by decide
example :
    PacketData.tryFromRaw ⟨"uatom", "not-a-number", "a", "b"⟩ =
      .error (.invalidCoinAmount "invalid decimal: not-a-number") := by decide
